import Mathlib

/-!
Shallow embedding of the cuML adapter layer: the coordinate-descent (CD)
regression adapter (`solvers/cd.pyx`) and the UMAP embedding adapter
(`manifold/umap.pyx`).  Array contents live in the external native library
and are out of scope; the embedding tracks shapes, dtypes, adapter state,
and the sequence of native calls each method issues.
-/

set_option autoImplicit false

namespace Cuml

/-- Numeric precision of a device array: the two dtypes the adapters accept. -/
inductive Dtype where
  | f32
  | f64
deriving DecidableEq, Repr

/-- Shape/dtype view of a dense array (`CumlArray` / device ndarray).
A 1-D array of length `n` is represented as `rows = n`, `cols = 1`. -/
structure Arr where
  rows : Nat
  cols : Nat
  dtype : Dtype
deriving DecidableEq, Repr

/-- Errors raised by the adapter layer (Python exception classes collapsed to
the distinctions the adapters make). -/
inductive CumlError where
  | notImplemented
  | dtypeMismatch
  | dimensionMismatch
  | attributeError
  | typeError
  | keyError
  | assertionError
  | invalidInit
deriving DecidableEq, Repr

/-- Modelled from the spec: the dtype-conversion step of
`input_to_cuml_array` — the array converted to the requested dtype, or
unchanged when no conversion is requested. -/
def convertArr (a : Arr) : Option Dtype → Arr
  | some d => { a with dtype := d }
  | none => a

@[simp] theorem convertArr_rows (a : Arr) (cv : Option Dtype) :
    (convertArr a cv).rows = a.rows := by
  cases cv <;> rfl

@[simp] theorem convertArr_cols (a : Arr) (cv : Option Dtype) :
    (convertArr a cv).cols = a.cols := by
  cases cv <;> rfl

/-- Modelled from the spec: the shape checks of `input_to_cuml_array` —
`check_rows` / `check_cols`, when given, must match the array's shape
exactly. -/
def shapeOk (a : Arr) (check_rows check_cols : Option Nat) : Bool :=
  (match check_rows with
    | some r => a.rows == r
    | none => true) &&
  (match check_cols with
    | some c => a.cols == c
    | none => true)

/-- Modelled from the spec: `input_to_cuml_array` (cuml.common.input_utils,
not included under src/).  Validates an input array: when `convert_to_dtype`
is set the array is converted to that dtype first; otherwise the dtype must
be one of `check_dtype`; then the shape checks are applied. -/
def input_to_cuml_array (a : Arr) (check_dtype : List Dtype)
    (convert_to_dtype : Option Dtype) (check_rows : Option Nat)
    (check_cols : Option Nat) : Except CumlError Arr :=
  if (convertArr a convert_to_dtype).dtype ∈ check_dtype then
    if shapeOk (convertArr a convert_to_dtype) check_rows check_cols then
      .ok (convertArr a convert_to_dtype)
    else .error .dimensionMismatch
  else .error .dtypeMismatch

/-- State of a CD adapter instance (class `CD` in the solver binding).
`coef_`, `intercept_` are `None` at construction; `n_cols` / `dtype` model
the `self.n_cols` / `self.dtype` attributes, which do not exist before the
first `fit` assigns them (`none` = attribute missing, so reading it raises
`AttributeError`).  For `intercept_` only the precision of the stored native
scalar is tracked — its numeric value is produced by the native library. -/
structure CDModel where
  loss : String
  alpha : ℚ
  l1_ratio : ℚ
  fit_intercept : Bool
  normalize : Bool
  max_iter : Int
  tol : ℚ
  shuffle : Bool
  intercept_value : ℚ
  coef_ : Option Arr
  intercept_ : Option Dtype
  n_cols : Option Nat
  dtype : Option Dtype
  n_alpha : Option Nat
deriving DecidableEq, Repr

/-- `CD.__init__`: validates the loss selector against the enumerated set
`['squared_loss']`, raising `NotImplementedError` otherwise, then stores the
hyperparameters and initializes `coef_` and `intercept_` to `None`. -/
def CD.construct (loss : String) (alpha : ℚ) (l1_ratio : ℚ)
    (fit_intercept : Bool) (normalize : Bool) (max_iter : Int) (tol : ℚ)
    (shuffle : Bool) : Except CumlError CDModel :=
  if loss ∉ ["squared_loss"] then
    .error .notImplemented
  else
    .ok { loss := loss, alpha := alpha, l1_ratio := l1_ratio,
          fit_intercept := fit_intercept, normalize := normalize,
          max_iter := max_iter, tol := tol, shuffle := shuffle,
          intercept_value := 0, coef_ := none, intercept_ := none,
          n_cols := none, dtype := none, n_alpha := none }

/-- `CD._get_loss_int`: dictionary lookup `{'squared_loss': 0}[self.loss]`;
`none` models the `KeyError` on any other stored loss. -/
def CDModel.get_loss_int (m : CDModel) : Option Int :=
  if m.loss = "squared_loss" then some 0 else none

/-- Arguments marshalled to the native `cdFit` entry point (the precision of
the pointers is carried by the `Event` constructor, not here; a null
`sample_weight` pointer is recorded as `sample_weight_null = true`). -/
structure CdFitArgs where
  n_rows : Nat
  n_cols : Nat
  fit_intercept : Bool
  normalize : Bool
  epochs : Int
  loss : Int
  alpha : ℚ
  l1_ratio : ℚ
  shuffle : Bool
  tol : ℚ
  sample_weight_null : Bool
deriving DecidableEq, Repr

/-- Arguments marshalled to the native `cdPredict` entry point. -/
structure CdPredictArgs where
  n_rows : Nat
  n_cols : Nat
  loss : Int
deriving DecidableEq, Repr

/-- Observable native-side events issued by an adapter method, in program
order: calls into the two precision-specific overloads of `cdFit` /
`cdPredict`, the stream synchronization `self.handle.sync()`, and the
UMAP adapter's native allocations, frees and its fit call. -/
inductive Event where
  | cdFit32 (a : CdFitArgs)
  | cdFit64 (a : CdFitArgs)
  | cdPredict32 (a : CdPredictArgs)
  | cdPredict64 (a : CdPredictArgs)
  | sync
  | freeParams (p : Nat)
  | freeUmap (p : Nat)
  | freeKnn (p : Nat)
  | allocKnn (p : Nat) (d : Nat)
  | allocParams (p : Nat)
  | allocUmap (p : Nat)
  | umapNativeFit (n : Nat) (d : Nat)
deriving DecidableEq, Repr

/-- Decidable equality for `Except`, so that concrete adapter results can be
settled by `decide`. -/
instance {ε α : Type} [DecidableEq ε] [DecidableEq α] :
    DecidableEq (Except ε α) := fun x y =>
  match x, y with
  | .error e, .error f =>
    if h : e = f then isTrue (by rw [h]) else isFalse (by simp [h])
  | .error _, .ok _ => isFalse (by simp)
  | .ok _, .error _ => isFalse (by simp)
  | .ok a, .ok b =>
    if h : a = b then isTrue (by rw [h]) else isFalse (by simp [h])

/-- Result of one `CD.fit` call: the instance state after the call (Python
attribute mutations performed before an exception persist), the trace of
native events issued, and success or the exception raised. -/
structure CDFitResult where
  state : CDModel
  trace : List Event
  result : Except CumlError Unit
deriving DecidableEq, Repr

/-- The sample-weight validation step of `CD.fit`: nothing to check when no
sample weight is supplied (a null pointer is passed to the native call,
recorded as `true`); otherwise the weight array is validated against the
working dtype and `check_rows = n_rows`, `check_cols = 1`. -/
def CD.checkSampleWeight (dt : Dtype) (n_rows : Nat) (convert_dtype : Bool) :
    Option Arr → Except CumlError Bool
  | none => .ok true
  | some sw =>
    match input_to_cuml_array sw [dt]
        (if convert_dtype then some dt else none) (some n_rows) (some 1) with
    | .error e => .error e
    | .ok _ => .ok false

/-- `CD.fit(X, y, convert_dtype, sample_weight)`, mirroring the source order:
X is converted first and `self.n_cols` / `self.dtype` are assigned from it;
then y is validated (`check_rows = n_rows`, `check_cols = 1`); then the
optional sample weight likewise; then `self.n_alpha = 1` and
`self.coef_ = zeros(n_cols)`; then the dtype dispatch to `cdFit` (single or
double precision), assignment of `intercept_`, and `self.handle.sync()`. -/
def CD.fit (m : CDModel) (X y : Arr) (convert_dtype : Bool)
    (sample_weight : Option Arr) : CDFitResult :=
  match input_to_cuml_array X [.f32, .f64] none none none with
  | .error e => ⟨m, [], .error e⟩
  | .ok X_m =>
    match input_to_cuml_array y [X_m.dtype]
        (if convert_dtype then some X_m.dtype else none)
        (some X_m.rows) (some 1) with
    | .error e =>
      ⟨{ m with n_cols := some X_m.cols, dtype := some X_m.dtype },
       [], .error e⟩
    | .ok _y_m =>
      match CD.checkSampleWeight X_m.dtype X_m.rows convert_dtype
          sample_weight with
      | .error e =>
        ⟨{ m with n_cols := some X_m.cols, dtype := some X_m.dtype },
         [], .error e⟩
      | .ok sw_null =>
        match CDModel.get_loss_int
            { m with n_cols := some X_m.cols, dtype := some X_m.dtype,
                     n_alpha := some 1,
                     coef_ := some ⟨X_m.cols, 1, X_m.dtype⟩ } with
        | none =>
          ⟨{ m with n_cols := some X_m.cols, dtype := some X_m.dtype,
                    n_alpha := some 1,
                    coef_ := some ⟨X_m.cols, 1, X_m.dtype⟩ },
           [], .error .keyError⟩
        | some loss_int =>
          if X_m.dtype = .f32 then
            ⟨{ m with n_cols := some X_m.cols, dtype := some X_m.dtype,
                      n_alpha := some 1,
                      coef_ := some ⟨X_m.cols, 1, X_m.dtype⟩,
                      intercept_ := some .f32 },
             [.cdFit32 { n_rows := X_m.rows, n_cols := X_m.cols,
                         fit_intercept := m.fit_intercept,
                         normalize := m.normalize, epochs := m.max_iter,
                         loss := loss_int, alpha := m.alpha,
                         l1_ratio := m.l1_ratio, shuffle := m.shuffle,
                         tol := m.tol, sample_weight_null := sw_null },
              .sync], .ok ()⟩
          else
            ⟨{ m with n_cols := some X_m.cols, dtype := some X_m.dtype,
                      n_alpha := some 1,
                      coef_ := some ⟨X_m.cols, 1, X_m.dtype⟩,
                      intercept_ := some .f64 },
             [.cdFit64 { n_rows := X_m.rows, n_cols := X_m.cols,
                         fit_intercept := m.fit_intercept,
                         normalize := m.normalize, epochs := m.max_iter,
                         loss := loss_int, alpha := m.alpha,
                         l1_ratio := m.l1_ratio, shuffle := m.shuffle,
                         tol := m.tol, sample_weight_null := sw_null },
              .sync], .ok ()⟩

/-- Result of one `CD.predict` call: `predict` does not mutate the instance,
so only the native-event trace and the returned prediction buffer (or the
exception) are recorded. -/
structure CDPredictResult where
  trace : List Event
  result : Except CumlError Arr
deriving DecidableEq, Repr

/-- `CD.predict(X, convert_dtype)`, mirroring the source order: the call to
`input_to_cuml_array` reads `self.dtype` and `self.n_cols` (AttributeError on
an unfitted instance, where neither attribute exists), validates X with
`check_cols = self.n_cols`; then `self.coef_.ptr` is read (AttributeError if
`coef_` is `None`), `preds = zeros(n_rows)` is allocated, `self.intercept_`
is cast to the working precision (TypeError on `None`), and the
precision-specific `cdPredict` runs followed by `self.handle.sync()`. -/
def CD.predict (m : CDModel) (X : Arr) (convert_dtype : Bool) :
    CDPredictResult :=
  match m.dtype, m.n_cols with
  | some dt, some nc =>
    match input_to_cuml_array X [dt]
        (if convert_dtype then some dt else none) none (some nc) with
    | .error e => ⟨[], .error e⟩
    | .ok X_m =>
      match m.coef_ with
      | none => ⟨[], .error .attributeError⟩
      | some _coef =>
        match m.intercept_ with
        | none => ⟨[], .error .typeError⟩
        | some _ =>
          match m.get_loss_int with
          | none => ⟨[], .error .keyError⟩
          | some loss_int =>
            if dt = .f32 then
              ⟨[.cdPredict32 ⟨X_m.rows, X_m.cols, loss_int⟩, .sync],
               .ok ⟨X_m.rows, 1, dt⟩⟩
            else
              ⟨[.cdPredict64 ⟨X_m.rows, X_m.cols, loss_int⟩, .sync],
               .ok ⟨X_m.rows, 1, dt⟩⟩
  | _, _ => ⟨[], .error .attributeError⟩

/-- Shape/dtype view of a general ndarray (the UMAP binding asserts 2-D
itself rather than delegating to a converter). -/
structure NArray where
  shape : List Nat
  dtype : Dtype
deriving DecidableEq, Repr

/-- The native `UMAPParams` struct (`umap/umapparams.h`).  `new UMAPParams()`
value-initializes every field to zero; the binding then assigns fields one by
one.  `transform_queue_size` is declared `float` but assigned through an
`<int>` cast in the binding, so its truncated value is recorded. -/
structure UMAPParams where
  n_neighbors : Int
  n_components : Int
  n_epochs : Int
  learning_rate : ℚ
  min_dist : ℚ
  spread : ℚ
  init : Int
  set_op_mix_ratio : ℚ
  local_connectivity : ℚ
  repulsion_strength : ℚ
  negative_sample_rate : Int
  transform_queue_size : Int
deriving DecidableEq, Repr

/-- The zero-initialized `UMAPParams` produced by `new UMAPParams()`. -/
def UMAPParams.zeroed : UMAPParams :=
  ⟨0, 0, 0, 0, 0, 0, 0, 0, 0, 0, 0, 0⟩

/-- The native heap as seen through this binding: a fresh-id allocator and
the set of currently live native objects (kNN indexes, `UMAPParams` structs,
`UMAP` objects), each named by its id. -/
structure UHeap where
  next : Nat
  live : List Nat
deriving DecidableEq, Repr

/-- Allocate a fresh native object (`new`), returning its id. -/
def UHeap.alloc (h : UHeap) : Nat × UHeap :=
  (h.next, ⟨h.next + 1, h.next :: h.live⟩)

/-- Release a native object (`del` on a C++ pointer): the id is removed
from the live set (ids are unique by construction, so removing every
occurrence coincides with removing the one allocation). -/
def UHeap.free (h : UHeap) (p : Nat) : UHeap :=
  ⟨h.next, h.live.filter (fun q => q != p)⟩

/-- Well-formed heap: live ids are distinct and below the allocation
counter, so freshly allocated ids never collide with live ones. -/
def UHeap.wf (h : UHeap) : Prop :=
  h.live.Nodup ∧ ∀ p ∈ h.live, p < h.next

instance (h : UHeap) : Decidable h.wf := by
  unfold UHeap.wf; infer_instance

/-- State of a `UMAP1` instance (cdef class in `umap.pyx`).  The three
native pointers start NULL (`none`); `del ptr` is modelled as releasing the
object and dropping ownership.  `paramsVal` is the model-side view of the
contents of the live `UMAPParams` struct; `embeddings` / `raw_data` mirror
the device-pointer attributes at shape level. -/
structure UMAP1State where
  umap_params : Option Nat
  umap : Option Nat
  knn : Option Nat
  paramsVal : Option UMAPParams
  embeddings : Option NArray
  raw_data : Option NArray
deriving DecidableEq, Repr

/-- A freshly constructed `UMAP1` (after `__cinit__`: all pointers NULL). -/
def UMAP1.initial : UMAP1State :=
  ⟨none, none, none, none, none, none⟩

/-- The handles a `UMAP1` instance currently owns, in the order the binding
releases them (params, umap, knn). -/
def UMAP1State.owned (s : UMAP1State) : List Nat :=
  s.umap_params.toList ++ s.umap.toList ++ s.knn.toList

/-- Hyperparameters of `UMAP1.fit`, with the source's defaults.  The
integer-valued ones are taken as naturals (they are cast `<int>` from
non-negative Python defaults). -/
structure UMAPFitArgs where
  n_neighbors : Nat := 2
  n_components : Nat := 2
  n_epochs : Nat := 500
  learning_rate : ℚ := 1
  min_dist : ℚ := 1/10
  spread : ℚ := 1
  set_op_mix_ratio : ℚ := 1
  local_connectivity : ℚ := 1
  repulsion_strength : ℚ := 1
  negative_sample_rate : Nat := 5
  transform_queue_size : ℚ := 4
  init : String := "spectral"
deriving DecidableEq, Repr

/-- Result of one `UMAP1.fit` call: instance state and native heap after the
call, the native-event trace, and the returned embedding or the exception. -/
structure UMAPFitResult where
  state : UMAP1State
  heap : UHeap
  trace : List Event
  result : Except CumlError NArray
deriving DecidableEq, Repr

/-- `UMAP1.fit(X, ...)`, mirroring the source order: first any previously
held `umap_params`, `umap` and `knn` objects are released (`del` guarded by
NULL checks); then `assert len(X.shape) == 2`; then `row_matrix(X)` and the
zeroed embedding buffer of shape `(n_rows, n_components)` are created; then
`new kNN(d)` and `new UMAPParams()` are allocated and `n_neighbors`,
`n_components`, `n_epochs` assigned; then the `init` string is mapped
(`"spectral"` to 1, `"random"` to 0, anything else raises); on success the
remaining params fields are assigned, `new UMAP(params)` is allocated, the
native `umap.fit` runs, and the embedding array is returned.  No stream
synchronization is issued anywhere in the method. -/
def UMAP1.fit (s : UMAP1State) (h0 : UHeap) (X : NArray)
    (a : UMAPFitArgs) : UMAPFitResult :=
  let fr1 : UHeap × List Event :=
    match s.umap_params with
    | some p => (h0.free p, [.freeParams p])
    | none => (h0, [])
  let fr2 : UHeap × List Event :=
    match s.umap with
    | some p => ((fr1.1).free p, [.freeUmap p])
    | none => (fr1.1, [])
  let fr3 : UHeap × List Event :=
    match s.knn with
    | some p => ((fr2.1).free p, [.freeKnn p])
    | none => (fr2.1, [])
  let h3 := fr3.1
  let tr0 := fr1.2 ++ fr2.2 ++ fr3.2
  let s3 : UMAP1State :=
    { s with umap_params := none, umap := none, knn := none,
             paramsVal := none }
  if X.shape.length = 2 then
    let n := X.shape.getD 0 0
    let d := X.shape.getD 1 0
    let s4 := { s3 with raw_data := some ⟨[n, d], X.dtype⟩ }
    let arr_embed : NArray := ⟨[n, a.n_components], .f32⟩
    let s5 := { s4 with embeddings := some arr_embed }
    let (k, h4) := h3.alloc
    let s6 := { s5 with knn := some k }
    let (pp, h5) := h4.alloc
    let p0 : UMAPParams :=
      { UMAPParams.zeroed with n_neighbors := (a.n_neighbors : Int),
                               n_components := (a.n_components : Int),
                               n_epochs := (a.n_epochs : Int) }
    let initCode : Option Int :=
      if a.init = "spectral" then some 1
      else if a.init = "random" then some 0
      else none
    match initCode with
    | none =>
        { state := { s6 with umap_params := some pp, paramsVal := some p0 },
          heap := h5,
          trace := tr0 ++ [.allocKnn k d, .allocParams pp],
          result := .error .invalidInit }
    | some c =>
        let p1 : UMAPParams :=
          { p0 with init := c, learning_rate := a.learning_rate,
                    min_dist := a.min_dist, spread := a.spread,
                    set_op_mix_ratio := a.set_op_mix_ratio,
                    local_connectivity := a.local_connectivity,
                    repulsion_strength := a.repulsion_strength,
                    negative_sample_rate := (a.negative_sample_rate : Int),
                    transform_queue_size := (a.transform_queue_size).floor }
        let (u, h6) := h5.alloc
        { state := { s6 with umap_params := some pp, paramsVal := some p1,
                             umap := some u },
          heap := h6,
          trace := tr0 ++ [.allocKnn k d, .allocParams pp, .allocUmap u,
                           .umapNativeFit n d],
          result := .ok arr_embed }
  else
    { state := s3, heap := h3, trace := tr0,
      result := .error .assertionError }

/-- `UMAP1.__dealloc__`: releases the three native objects unconditionally
(`delete` of a NULL C++ pointer is a no-op, modelled by the `none` cases). -/
def UMAP1.dealloc (s : UMAP1State) (h0 : UHeap) : UHeap × List Event :=
  let fr1 : UHeap × List Event :=
    match s.umap_params with
    | some p => (h0.free p, [.freeParams p])
    | none => (h0, [])
  let fr2 : UHeap × List Event :=
    match s.umap with
    | some p => ((fr1.1).free p, [.freeUmap p])
    | none => (fr1.1, [])
  let fr3 : UHeap × List Event :=
    match s.knn with
    | some p => ((fr2.1).free p, [.freeKnn p])
    | none => (fr2.1, [])
  (fr3.1, fr1.2 ++ fr2.2 ++ fr3.2)

/-- The methods defined on the cdef class `UMAP1` in `umap.pyx`, by name. -/
def UMAP1.methods : List String :=
  ["__cinit__", "__dealloc__", "fit"]

/-- The member functions declared on the native `cppclass UMAP` in the
extern block of `umap.pyx` (`umap/umap.h`), by name. -/
def UMAP.nativeMethods : List String :=
  ["fit", "transform"]

/-- A CD instance as produced by `CD()` with the source's default
hyperparameters (`alpha = 0.0001`, `l1_ratio = 0.15`, `tol = 1e-3`). -/
def cdDefault : CDModel :=
  ⟨"squared_loss", 1/10000, 3/20, true, false, 1000, 1/1000, true, 0,
   none, none, none, none, none⟩

/-- Whether an event is a call into one of the native `cdFit` overloads. -/
def Event.isCdFit : Event → Bool
  | .cdFit32 _ => true
  | .cdFit64 _ => true
  | _ => false

/-- Whether an event is the native `umap.fit` call. -/
def Event.isUmapFit : Event → Bool
  | .umapNativeFit _ _ => true
  | _ => false

/-- The release events `UMAP1.fit` issues for the state it held on entry:
`del` of `umap_params`, `umap` and `knn`, in source order, each guarded by a
NULL check. -/
def freeTrace (s : UMAP1State) : List Event :=
  s.umap_params.toList.map Event.freeParams ++
  s.umap.toList.map Event.freeUmap ++
  s.knn.toList.map Event.freeKnn

/-- C1: constructing CD with a loss other than 'squared_loss' raises
`NotImplementedError` in the constructor, before any fit; construction with
'squared_loss' succeeds. -/
theorem cd_construct_validates_loss (loss : String) (alpha l1r tol : ℚ)
    (fi no sh : Bool) (mi : Int) :
    (loss ≠ "squared_loss" →
      CD.construct loss alpha l1r fi no mi tol sh = .error .notImplemented) ∧
    (∃ m, CD.construct "squared_loss" alpha l1r fi no mi tol sh = .ok m) := by
  constructor
  · intro h
    simp [CD.construct, h]
  · exact ⟨⟨"squared_loss", alpha, l1r, fi, no, mi, tol, sh, 0,
            none, none, none, none, none⟩, by simp [CD.construct]⟩

theorem cd_construct_validates_loss_witness :
    (CD.construct "hinge" 0 0 true false 1000 0 true
      = .error .notImplemented) ∧
    (∃ m, CD.construct "squared_loss" 0 0 true false 1000 0 true = .ok m) :=
  ⟨(cd_construct_validates_loss "hinge" 0 0 0 true false true 1000).1
      (by decide),
   (cd_construct_validates_loss "hinge" 0 0 0 true false true 1000).2⟩

/-- C2 counterexample: the `UMAP1` adapter class defines no `transform`
method at all — only `__cinit__`, `__dealloc__` and `fit` — so the adapter
does not provide a transform operation. -/
theorem umap1_has_no_transform_method :
    "transform" ∉ UMAP1.methods := by
  decide

/-- C2 amended: the native `UMAP` class declares a `transform` member in the
extern block, but the adapter `UMAP1` does not wrap it; the adapter's only
methods are `__cinit__`, `__dealloc__` and `fit`. -/
theorem umap_transform_declared_but_not_wrapped :
    "transform" ∈ UMAP.nativeMethods ∧
    "transform" ∉ UMAP1.methods ∧
    UMAP1.methods = ["__cinit__", "__dealloc__", "fit"] := by
  refine ⟨by decide, by decide, rfl⟩

/-- C10: a freshly constructed CD instance has `coef_ = None` and no
`n_cols` / `dtype` attributes, so `predict` on it raises `AttributeError`
(before issuing any native call) rather than returning predictions. -/
theorem cd_predict_unfitted_raises (alpha l1r tol : ℚ) (fi no sh : Bool)
    (mi : Int) (X : Arr) (cd : Bool) (m : CDModel)
    (h : CD.construct "squared_loss" alpha l1r fi no mi tol sh = .ok m) :
    m.coef_ = none ∧ m.n_cols = none ∧ m.dtype = none ∧
    (CD.predict m X cd).result = .error .attributeError ∧
    (CD.predict m X cd).trace = [] := by
  have hm : m = ⟨"squared_loss", alpha, l1r, fi, no, mi, tol, sh, 0,
                 none, none, none, none, none⟩ := by
    simpa [CD.construct] using h.symm
  subst hm
  exact ⟨rfl, rfl, rfl, rfl, rfl⟩

theorem cd_predict_unfitted_raises_witness :
    ∃ m : CDModel,
      m.coef_ = none ∧ m.n_cols = none ∧ m.dtype = none ∧
      (CD.predict m ⟨4, 2, .f32⟩ false).result = .error .attributeError ∧
      (CD.predict m ⟨4, 2, .f32⟩ false).trace = [] :=
  ⟨cdDefault,
   cd_predict_unfitted_raises (1/10000) (3/20) (1/1000) true false true 1000
     ⟨4, 2, .f32⟩ false cdDefault rfl⟩

/-- C3 counterexample: a successful `UMAP1.fit` call issues no stream
synchronization at all — its native-event trace contains no `sync` — so the
claim that every fit of both adapters ends with an explicit synchronization
point fails on the embedding adapter. -/
theorem umap1_fit_never_syncs :
    (UMAP1.fit UMAP1.initial ⟨0, []⟩ ⟨[4, 3], .f32⟩ {}).result.isOk = true ∧
    Event.sync ∉ (UMAP1.fit UMAP1.initial ⟨0, []⟩ ⟨[4, 3], .f32⟩ {}).trace := by
  decide

/-- C3 amended: the regression adapter's `fit` and `predict` each end with
`self.handle.sync()` — on success the last native event of the call is
`sync` — but the embedding adapter performs no synchronization. -/
theorem cd_fit_predict_end_in_sync (m : CDModel) (X y : Arr) (cd : Bool)
    (sw : Option Arr) :
    (∀ st tr, CD.fit m X y cd sw = ⟨st, tr, .ok ()⟩ →
      tr.getLast? = some Event.sync) ∧
    (∀ tr p, CD.predict m X cd = ⟨tr, .ok p⟩ →
      tr.getLast? = some Event.sync) := by
  constructor
  · intro st tr h
    unfold CD.fit at h
    repeat' split at h
    all_goals injection h with hst htr hres
    all_goals first
      | exact Except.noConfusion hres
      | (subst htr; rfl)
  · intro tr p h
    unfold CD.predict at h
    repeat' split at h
    all_goals injection h with htr hres
    all_goals first
      | exact Except.noConfusion hres
      | (subst htr; rfl)

theorem cd_fit_predict_end_in_sync_witness :
    (CD.fit cdDefault ⟨2, 2, .f32⟩ ⟨2, 1, .f32⟩ false none).trace.getLast?
        = some Event.sync ∧
    (CD.predict (CD.fit cdDefault ⟨2, 2, .f32⟩ ⟨2, 1, .f32⟩ false none).state
        ⟨5, 2, .f32⟩ false).trace.getLast? = some Event.sync :=
  ⟨(cd_fit_predict_end_in_sync cdDefault ⟨2, 2, .f32⟩ ⟨2, 1, .f32⟩ false
      none).1 (CD.fit cdDefault ⟨2, 2, .f32⟩ ⟨2, 1, .f32⟩ false none).state
      (CD.fit cdDefault ⟨2, 2, .f32⟩ ⟨2, 1, .f32⟩ false none).trace rfl,
   (cd_fit_predict_end_in_sync
      (CD.fit cdDefault ⟨2, 2, .f32⟩ ⟨2, 1, .f32⟩ false none).state
      ⟨5, 2, .f32⟩ ⟨2, 1, .f32⟩ false none).2
      (CD.predict (CD.fit cdDefault ⟨2, 2, .f32⟩ ⟨2, 1, .f32⟩ false
        none).state ⟨5, 2, .f32⟩ false).trace ⟨5, 1, .f32⟩ rfl⟩

/-- C4 counterexample: `CD.fit` mutates `self.n_cols` / `self.dtype` before
validating `y`, so a failing second fit leaves behind a usable but
inconsistent fitted state: after a successful 2-column fit, a failing fit on
3-column data updates `n_cols` to 3 while keeping the stale length-2
coefficient vector, and a subsequent 3-column `predict` runs to completion
against that state. -/
theorem cd_fit_failure_leaves_partial_state :
    (CD.fit cdDefault ⟨2, 2, .f32⟩ ⟨2, 1, .f32⟩ false none).result.isOk
        = true ∧
    ((CD.fit (CD.fit cdDefault ⟨2, 2, .f32⟩ ⟨2, 1, .f32⟩ false none).state
        ⟨2, 3, .f32⟩ ⟨3, 1, .f32⟩ false none).result
      = .error .dimensionMismatch) ∧
    ((CD.fit (CD.fit cdDefault ⟨2, 2, .f32⟩ ⟨2, 1, .f32⟩ false none).state
        ⟨2, 3, .f32⟩ ⟨3, 1, .f32⟩ false none).state.n_cols = some 3) ∧
    ((CD.fit (CD.fit cdDefault ⟨2, 2, .f32⟩ ⟨2, 1, .f32⟩ false none).state
        ⟨2, 3, .f32⟩ ⟨3, 1, .f32⟩ false none).state.coef_
      = some ⟨2, 1, .f32⟩) ∧
    ((CD.predict
        (CD.fit (CD.fit cdDefault ⟨2, 2, .f32⟩ ⟨2, 1, .f32⟩ false none).state
          ⟨2, 3, .f32⟩ ⟨3, 1, .f32⟩ false none).state
        ⟨5, 3, .f32⟩ false).result = .ok ⟨5, 1, .f32⟩) := by
  decide

/-- C4 amended: a `fit` call that fails input validation issues no native
call and produces no output (empty native trace) and leaves `coef_` and
`intercept_` unchanged, but it may leave the stored `n_cols` / `dtype`
attributes updated to the new input's shape, so failed fits are not free of
partial state. -/
theorem cd_fit_failure_no_native_call (m : CDModel) (X y : Arr) (cd : Bool)
    (sw : Option Arr) (st : CDModel) (tr : List Event) (e : CumlError)
    (hm : m.loss = "squared_loss")
    (h : CD.fit m X y cd sw = ⟨st, tr, .error e⟩) :
    tr = [] ∧ st.coef_ = m.coef_ ∧ st.intercept_ = m.intercept_ := by
  unfold CD.fit at h
  repeat' split at h
  all_goals injection h with hst htr hres
  all_goals try exact Except.noConfusion hres
  all_goals subst hst htr
  all_goals simp_all [CDModel.get_loss_int]

theorem cd_fit_failure_no_native_call_witness :
    (CD.fit cdDefault ⟨2, 2, .f32⟩ ⟨3, 1, .f32⟩ false none).trace = [] ∧
    (CD.fit cdDefault ⟨2, 2, .f32⟩ ⟨3, 1, .f32⟩ false none).state.coef_
        = cdDefault.coef_ ∧
    (CD.fit cdDefault ⟨2, 2, .f32⟩ ⟨3, 1, .f32⟩ false none).state.intercept_
        = cdDefault.intercept_ :=
  cd_fit_failure_no_native_call cdDefault ⟨2, 2, .f32⟩ ⟨3, 1, .f32⟩ false
    none (CD.fit cdDefault ⟨2, 2, .f32⟩ ⟨3, 1, .f32⟩ false none).state
    (CD.fit cdDefault ⟨2, 2, .f32⟩ ⟨3, 1, .f32⟩ false none).trace
    .dimensionMismatch rfl rfl

/-- C5: on a fitted model, `predict` rejects inputs whose column count
differs from the fitted `n_cols` with a dimension-mismatch error, and on a
matching column count returns a length-`n_rows` prediction buffer of the
working dtype. -/
theorem cd_predict_checks_cols (m : CDModel) (X : Arr) (cd : Bool)
    (dt : Dtype) (nc : Nat) (c : Arr) (i : Dtype)
    (hdt : m.dtype = some dt) (hnc : m.n_cols = some nc)
    (hloss : m.loss = "squared_loss") (hc : m.coef_ = some c)
    (hi : m.intercept_ = some i) (hXd : X.dtype = dt) :
    (X.cols ≠ nc →
      (CD.predict m X cd).result = .error .dimensionMismatch) ∧
    (X.cols = nc → (CD.predict m X cd).result = .ok ⟨X.rows, 1, dt⟩) := by
  subst hXd
  obtain ⟨r, cl, d⟩ := X
  unfold CD.predict input_to_cuml_array
  rw [hdt, hnc, hc, hi]
  constructor
  · intro hne
    cases cd <;> cases d <;>
      simp [CDModel.get_loss_int, hloss, hne, convertArr, shapeOk]
  · intro he
    subst he
    cases cd <;> cases d <;>
      simp [CDModel.get_loss_int, hloss, convertArr, shapeOk]

theorem cd_predict_checks_cols_witness :
    ((CD.predict (CD.fit cdDefault ⟨2, 2, .f32⟩ ⟨2, 1, .f32⟩ false
        none).state ⟨5, 9, .f32⟩ false).result
      = .error .dimensionMismatch) ∧
    ((CD.predict (CD.fit cdDefault ⟨2, 2, .f32⟩ ⟨2, 1, .f32⟩ false
        none).state ⟨5, 2, .f32⟩ false).result = .ok ⟨5, 1, .f32⟩) :=
  ⟨(cd_predict_checks_cols
      (CD.fit cdDefault ⟨2, 2, .f32⟩ ⟨2, 1, .f32⟩ false none).state
      ⟨5, 9, .f32⟩ false .f32 2 ⟨2, 1, .f32⟩ .f32
      rfl rfl rfl rfl rfl rfl).1 (by decide),
   (cd_predict_checks_cols
      (CD.fit cdDefault ⟨2, 2, .f32⟩ ⟨2, 1, .f32⟩ false none).state
      ⟨5, 2, .f32⟩ false .f32 2 ⟨2, 1, .f32⟩ .f32
      rfl rfl rfl rfl rfl rfl).2 rfl⟩

/-- An accepted input array keeps its shape: the converted array returned by
a successful `input_to_cuml_array` has the rows and cols of the original. -/
theorem input_to_cuml_array_ok_shape (a b : Arr) (ds : List Dtype)
    (cv : Option Dtype) (r c : Option Nat)
    (h : input_to_cuml_array a ds cv r c = .ok b) :
    b.rows = a.rows ∧ b.cols = a.cols := by
  unfold input_to_cuml_array at h
  repeat' split at h
  all_goals first
    | exact Except.noConfusion h
    | (injection h with h; subst h; simp)

/-- A successful `input_to_cuml_array` with `check_rows = some r0` implies
the input had exactly `r0` rows. -/
theorem input_to_cuml_array_ok_rows (a b : Arr) (ds : List Dtype)
    (cv : Option Dtype) (r0 : Nat) (c : Option Nat)
    (h : input_to_cuml_array a ds cv (some r0) c = .ok b) :
    a.rows = r0 := by
  unfold input_to_cuml_array at h
  repeat' split at h
  all_goals simp_all [shapeOk]

/-- A successful `input_to_cuml_array` with `check_cols = some c0` implies
the input had exactly `c0` columns. -/
theorem input_to_cuml_array_ok_cols (a b : Arr) (ds : List Dtype)
    (cv : Option Dtype) (r : Option Nat) (c0 : Nat)
    (h : input_to_cuml_array a ds cv r (some c0) = .ok b) :
    a.cols = c0 := by
  unfold input_to_cuml_array at h
  repeat' split at h
  all_goals simp_all [shapeOk]

/-- With no conversion requested, a successful `input_to_cuml_array`
implies the input's dtype was in the accepted list. -/
theorem input_to_cuml_array_ok_dtype (a b : Arr) (ds : List Dtype)
    (r c : Option Nat)
    (h : input_to_cuml_array a ds none r c = .ok b) :
    a.dtype ∈ ds := by
  unfold input_to_cuml_array at h
  repeat' split at h
  all_goals simp_all [convertArr]

/-- With no conversion requested, a successful `input_to_cuml_array`
returns the input array unchanged. -/
theorem input_to_cuml_array_ok_of_none (a b : Arr) (ds : List Dtype)
    (r c : Option Nat)
    (h : input_to_cuml_array a ds none r c = .ok b) : b = a := by
  unfold input_to_cuml_array at h
  repeat' split at h
  all_goals first
    | exact Except.noConfusion h
    | (injection h with h; subst h; rfl)

/-- C6 counterexample: with `convert_dtype = true`, a sample weight whose
dtype does not match the working dtype is converted rather than rejected —
the fit succeeds and the native `cdFit` is invoked — so a dtype mismatch in
`sample_weight` does not always fail validation. -/
theorem cd_fit_weight_dtype_mismatch_not_rejected :
    (⟨2, 1, .f64⟩ : Arr).dtype ≠ (⟨2, 2, .f32⟩ : Arr).dtype ∧
    (CD.fit cdDefault ⟨2, 2, .f32⟩ ⟨2, 1, .f32⟩ true
        (some ⟨2, 1, .f64⟩)).result = .ok () ∧
    (CD.fit cdDefault ⟨2, 2, .f32⟩ ⟨2, 1, .f32⟩ true
        (some ⟨2, 1, .f64⟩)).trace.any Event.isCdFit = true := by
  decide

/-- C6 amended: `CD.fit` checks all shapes before the native call — a `y`
with more than one column or a row count different from X, or a
`sample_weight` with a row count different from X, fails validation with no
native event issued; a `sample_weight` dtype mismatch is likewise rejected
when `convert_dtype` is false (with `convert_dtype` true it is converted
instead). -/
theorem cd_fit_validates_shapes (m : CDModel) (X y : Arr) (cd : Bool)
    (w : Arr) :
    ((y.cols ≠ 1 ∨ y.rows ≠ X.rows) → ∀ sw st tr res,
      CD.fit m X y cd sw = ⟨st, tr, res⟩ →
        res.isOk = false ∧ tr = []) ∧
    ((w.rows ≠ X.rows ∨ (cd = false ∧ w.dtype ≠ X.dtype)) →
      ∀ st tr res, CD.fit m X y cd (some w) = ⟨st, tr, res⟩ →
        res.isOk = false ∧ tr = []) := by
  constructor
  · intro hy sw st tr res h
    unfold CD.fit at h
    rcases hX : input_to_cuml_array X [.f32, .f64] none none none
      with eX | X_m
    · simp only [hX] at h
      injection h with hst htr hres
      subst hres htr
      exact ⟨rfl, rfl⟩
    · have hXX := (input_to_cuml_array_ok_of_none X X_m _ _ _ hX).symm
      subst hXX
      simp only [hX] at h
      rcases hY : input_to_cuml_array y [X.dtype]
          (if cd then some X.dtype else none) (some X.rows) (some 1)
        with eY | y_m
      · simp only [hY] at h
        injection h with hst htr hres
        subst hres htr
        exact ⟨rfl, rfl⟩
      · exfalso
        have h1 := input_to_cuml_array_ok_cols y y_m _ _ _ 1 hY
        have h2 := input_to_cuml_array_ok_rows y y_m _ _ X.rows _ hY
        rcases hy with h4 | h4
        · exact h4 h1
        · exact h4 h2
  · intro hw st tr res h
    unfold CD.fit at h
    rcases hX : input_to_cuml_array X [.f32, .f64] none none none
      with eX | X_m
    · simp only [hX] at h
      injection h with hst htr hres
      subst hres htr
      exact ⟨rfl, rfl⟩
    · have hXX := (input_to_cuml_array_ok_of_none X X_m _ _ _ hX).symm
      subst hXX
      simp only [hX] at h
      rcases hY : input_to_cuml_array y [X.dtype]
          (if cd then some X.dtype else none) (some X.rows) (some 1)
        with eY | y_m
      · simp only [hY] at h
        injection h with hst htr hres
        subst hres htr
        exact ⟨rfl, rfl⟩
      · simp only [hY] at h
        rcases hW : CD.checkSampleWeight X.dtype X.rows cd (some w)
          with eW | flag
        · simp only [hW] at h
          injection h with hst htr hres
          subst hres htr
          exact ⟨rfl, rfl⟩
        · exfalso
          simp only [CD.checkSampleWeight] at hW
          rcases hWW : input_to_cuml_array w [X.dtype]
              (if cd then some X.dtype else none) (some X.rows) (some 1)
            with eW2 | w_m
          · rw [hWW] at hW
            exact Except.noConfusion hW
          · have h1 := input_to_cuml_array_ok_rows w w_m _ _ X.rows _ hWW
            rcases hw with h4 | ⟨hcd, h4⟩
            · exact h4 h1
            · subst hcd
              simp only [if_neg Bool.false_ne_true] at hWW
              have h5 := input_to_cuml_array_ok_dtype w w_m [X.dtype] _ _ hWW
              simp only [List.mem_singleton] at h5
              exact h4 h5

theorem cd_fit_validates_shapes_witness :
    ((CD.fit cdDefault ⟨2, 2, .f32⟩ ⟨3, 1, .f32⟩ false none).result.isOk
        = false ∧
     (CD.fit cdDefault ⟨2, 2, .f32⟩ ⟨3, 1, .f32⟩ false none).trace = []) ∧
    ((CD.fit cdDefault ⟨2, 2, .f32⟩ ⟨2, 1, .f32⟩ false
        (some ⟨3, 1, .f32⟩)).result.isOk = false ∧
     (CD.fit cdDefault ⟨2, 2, .f32⟩ ⟨2, 1, .f32⟩ false
        (some ⟨3, 1, .f32⟩)).trace = []) :=
  ⟨(cd_fit_validates_shapes cdDefault ⟨2, 2, .f32⟩ ⟨3, 1, .f32⟩ false
      ⟨3, 1, .f32⟩).1 (Or.inr (by decide)) none _ _ _ rfl,
   (cd_fit_validates_shapes cdDefault ⟨2, 2, .f32⟩ ⟨2, 1, .f32⟩ false
      ⟨3, 1, .f32⟩).2 (Or.inl (by decide)) _ _ _ rfl⟩

/-- C7: on 2-D input, `UMAP1.fit` with an `init` outside
`{"spectral", "random"}` raises before the native `umap.fit` runs (the trace
contains no native-fit event), while `"spectral"` sets the native params'
init code to 1 and `"random"` sets it to 0. -/
theorem umap1_fit_validates_init (s : UMAP1State) (h : UHeap) (X : NArray)
    (a : UMAPFitArgs) (h2 : X.shape.length = 2) :
    (a.init ≠ "spectral" → a.init ≠ "random" →
      (UMAP1.fit s h X a).result = .error .invalidInit ∧
      (UMAP1.fit s h X a).trace.any Event.isUmapFit = false) ∧
    (a.init = "spectral" →
      Option.map UMAPParams.init (UMAP1.fit s h X a).state.paramsVal
        = some 1 ∧
      (UMAP1.fit s h X a).result.isOk = true) ∧
    (a.init = "random" →
      Option.map UMAPParams.init (UMAP1.fit s h X a).state.paramsVal
        = some 0 ∧
      (UMAP1.fit s h X a).result.isOk = true) := by
  obtain ⟨op, ou, okn, pv, emb, rd⟩ := s
  refine ⟨fun hs hr => ?_, fun hs => ?_, fun hr => ?_⟩
  · unfold UMAP1.fit
    rcases op with _ | p1 <;> rcases ou with _ | p2 <;>
      rcases okn with _ | p3 <;>
      simp [h2, hs, hr, Event.isUmapFit]
  · unfold UMAP1.fit
    rcases op with _ | p1 <;> rcases ou with _ | p2 <;>
      rcases okn with _ | p3 <;>
      simp [h2, hs, Except.isOk, Except.toBool]
  · unfold UMAP1.fit
    rcases op with _ | p1 <;> rcases ou with _ | p2 <;>
      rcases okn with _ | p3 <;>
      simp [h2, hr, Except.isOk, Except.toBool]

theorem umap1_fit_validates_init_witness :
    ((UMAP1.fit UMAP1.initial ⟨0, []⟩ ⟨[4, 3], .f32⟩
        { init := "pca" }).result = .error .invalidInit ∧
     (UMAP1.fit UMAP1.initial ⟨0, []⟩ ⟨[4, 3], .f32⟩
        { init := "pca" }).trace.any Event.isUmapFit = false) ∧
    Option.map UMAPParams.init
      (UMAP1.fit UMAP1.initial ⟨0, []⟩ ⟨[4, 3], .f32⟩ {}).state.paramsVal
        = some 1 ∧
    Option.map UMAPParams.init
      (UMAP1.fit UMAP1.initial ⟨0, []⟩ ⟨[4, 3], .f32⟩
        { init := "random" }).state.paramsVal = some 0 :=
  ⟨(umap1_fit_validates_init UMAP1.initial ⟨0, []⟩ ⟨[4, 3], .f32⟩
      { init := "pca" } (by decide)).1 (by decide) (by decide),
   ((umap1_fit_validates_init UMAP1.initial ⟨0, []⟩ ⟨[4, 3], .f32⟩ {}
      (by decide)).2.1 rfl).1,
   ((umap1_fit_validates_init UMAP1.initial ⟨0, []⟩ ⟨[4, 3], .f32⟩
      { init := "random" } (by decide)).2.2 rfl).1⟩

/-- C9: `CD.fit` dispatches on the input dtype to exactly one of the two
precision-specific `cdFit` overloads, passing the same arguments in both
branches (a single shared argument record `a`), and the stored coefficient
buffer and intercept have the input's precision; likewise `CD.predict`
routes to the matching `cdPredict` overload and returns a prediction buffer
of the input's precision. -/
theorem cd_fit_predict_precision_dispatch (m : CDModel)
    (rows cols prows : Nat) (cd : Bool) (hm : m.loss = "squared_loss") :
    ∃ a : CdFitArgs,
      CD.fit m ⟨rows, cols, .f32⟩ ⟨rows, 1, .f32⟩ cd none
        = ⟨{ m with n_cols := some cols, dtype := some .f32,
                    n_alpha := some 1, coef_ := some ⟨cols, 1, .f32⟩,
                    intercept_ := some .f32 },
           [.cdFit32 a, .sync], .ok ()⟩ ∧
      CD.fit m ⟨rows, cols, .f64⟩ ⟨rows, 1, .f64⟩ cd none
        = ⟨{ m with n_cols := some cols, dtype := some .f64,
                    n_alpha := some 1, coef_ := some ⟨cols, 1, .f64⟩,
                    intercept_ := some .f64 },
           [.cdFit64 a, .sync], .ok ()⟩ ∧
      CD.predict { m with n_cols := some cols, dtype := some .f32,
                          n_alpha := some 1, coef_ := some ⟨cols, 1, .f32⟩,
                          intercept_ := some .f32 }
          ⟨prows, cols, .f32⟩ false
        = ⟨[.cdPredict32 ⟨prows, cols, 0⟩, .sync], .ok ⟨prows, 1, .f32⟩⟩ ∧
      CD.predict { m with n_cols := some cols, dtype := some .f64,
                          n_alpha := some 1, coef_ := some ⟨cols, 1, .f64⟩,
                          intercept_ := some .f64 }
          ⟨prows, cols, .f64⟩ false
        = ⟨[.cdPredict64 ⟨prows, cols, 0⟩, .sync], .ok ⟨prows, 1, .f64⟩⟩ := by
  refine ⟨⟨rows, cols, m.fit_intercept, m.normalize, m.max_iter, 0,
           m.alpha, m.l1_ratio, m.shuffle, m.tol, true⟩, ?_, ?_, ?_, ?_⟩
  · unfold CD.fit CD.checkSampleWeight
    cases cd <;>
      simp [input_to_cuml_array, convertArr, shapeOk,
            CDModel.get_loss_int, hm]
  · unfold CD.fit CD.checkSampleWeight
    cases cd <;>
      simp [input_to_cuml_array, convertArr, shapeOk,
            CDModel.get_loss_int, hm]
  · unfold CD.predict
    simp [input_to_cuml_array, convertArr, shapeOk,
          CDModel.get_loss_int, hm]
  · unfold CD.predict
    simp [input_to_cuml_array, convertArr, shapeOk,
          CDModel.get_loss_int, hm]

theorem cd_fit_predict_precision_dispatch_witness :
    ∃ a : CdFitArgs,
      CD.fit cdDefault ⟨2, 2, .f32⟩ ⟨2, 1, .f32⟩ false none
        = ⟨{ cdDefault with n_cols := some 2, dtype := some .f32,
                            n_alpha := some 1, coef_ := some ⟨2, 1, .f32⟩,
                            intercept_ := some .f32 },
           [.cdFit32 a, .sync], .ok ()⟩ ∧
      CD.fit cdDefault ⟨2, 2, .f64⟩ ⟨2, 1, .f64⟩ false none
        = ⟨{ cdDefault with n_cols := some 2, dtype := some .f64,
                            n_alpha := some 1, coef_ := some ⟨2, 1, .f64⟩,
                            intercept_ := some .f64 },
           [.cdFit64 a, .sync], .ok ()⟩ ∧
      CD.predict { cdDefault with n_cols := some 2, dtype := some .f32,
                                  n_alpha := some 1,
                                  coef_ := some ⟨2, 1, .f32⟩,
                                  intercept_ := some .f32 }
          ⟨5, 2, .f32⟩ false
        = ⟨[.cdPredict32 ⟨5, 2, 0⟩, .sync], .ok ⟨5, 1, .f32⟩⟩ ∧
      CD.predict { cdDefault with n_cols := some 2, dtype := some .f64,
                                  n_alpha := some 1,
                                  coef_ := some ⟨2, 1, .f64⟩,
                                  intercept_ := some .f64 }
          ⟨5, 2, .f64⟩ false
        = ⟨[.cdPredict64 ⟨5, 2, 0⟩, .sync], .ok ⟨5, 1, .f64⟩⟩ :=
  cd_fit_predict_precision_dispatch cdDefault 2 2 5 false rfl

/-- A well-formed heap never lists an id at or above the allocation counter
as live. -/
theorem UHeap.fresh_not_live (h : UHeap) (hwf : h.wf) (k : Nat)
    (hk : h.next ≤ k) : k ∉ h.live :=
  fun hmem => absurd (hwf.2 k hmem) (by omega)

/-- On any `UMAP1.fit` call, every handle the instance owned on entry is
released: it is not live in the resulting heap, whichever path the call
takes. -/
theorem umap1_fit_frees_prev (s : UMAP1State) (h0 : UHeap) (X : NArray)
    (a : UMAPFitArgs) (hwf : h0.wf)
    (hsub : ∀ p ∈ s.owned, p ∈ h0.live) :
    ∀ p ∈ s.owned, p ∉ (UMAP1.fit s h0 X a).heap.live := by
  intro p hp
  have hlt := hwf.2 p (hsub p hp)
  obtain ⟨op, ou, okn, pv, emb, rd⟩ := s
  simp only [UMAP1State.owned, List.mem_append, Option.mem_toList] at hp
  by_cases h2 : X.shape.length = 2 <;>
    by_cases hs : a.init = "spectral" <;>
    by_cases hr : a.init = "random" <;>
    rcases op with _ | p1 <;> rcases ou with _ | p2 <;>
    rcases okn with _ | p3 <;>
    simp_all [UMAP1.fit, UHeap.free, UHeap.alloc] <;>
    omega

/-- The trace of a successful `UMAP1.fit` call: first the releases of the
previously held native objects, then the allocations of the fresh kNN
index, params struct and UMAP object, then the native fit — releases
strictly precede allocations. -/
theorem umap1_fit_trace_eq (s : UMAP1State) (h0 : UHeap) (X : NArray)
    (a : UMAPFitArgs) (h2 : X.shape.length = 2)
    (hinit : a.init = "spectral" ∨ a.init = "random") :
    (UMAP1.fit s h0 X a).trace
      = freeTrace s ++
        [.allocKnn h0.next (X.shape.getD 1 0), .allocParams (h0.next + 1),
         .allocUmap (h0.next + 2),
         .umapNativeFit (X.shape.getD 0 0) (X.shape.getD 1 0)] := by
  obtain ⟨op, ou, okn, pv, emb, rd⟩ := s
  rcases hinit with hi | hi <;>
    rcases op with _ | p1 <;> rcases ou with _ | p2 <;>
    rcases okn with _ | p3 <;>
    simp [UMAP1.fit, freeTrace, h2, hi, UHeap.free, UHeap.alloc]

/-- A successful `UMAP1.fit` leaves the instance owning exactly the three
freshly allocated handles, all live in the resulting heap and none of them
live before the call. -/
theorem umap1_fit_fresh_handles (s : UMAP1State) (h0 : UHeap) (X : NArray)
    (a : UMAPFitArgs) (hwf : h0.wf) (h2 : X.shape.length = 2)
    (hinit : a.init = "spectral" ∨ a.init = "random") :
    (UMAP1.fit s h0 X a).state.owned
      = [h0.next + 1, h0.next + 2, h0.next] ∧
    (∀ p ∈ (UMAP1.fit s h0 X a).state.owned,
      p ∈ (UMAP1.fit s h0 X a).heap.live) ∧
    (∀ p ∈ (UMAP1.fit s h0 X a).state.owned, p ∉ h0.live) := by
  obtain ⟨op, ou, okn, pv, emb, rd⟩ := s
  refine ⟨?_, ?_, ?_⟩ <;>
    rcases hinit with hi | hi <;>
    rcases op with _ | p1 <;> rcases ou with _ | p2 <;>
    rcases okn with _ | p3 <;>
    simp_all [UMAP1.fit, UMAP1State.owned, UHeap.free, UHeap.alloc, h2] <;>
    exact ⟨UHeap.fresh_not_live h0 hwf _ (by omega),
           UHeap.fresh_not_live h0 hwf _ (by omega),
           UHeap.fresh_not_live h0 hwf _ (by omega)⟩

/-- The outcome of `UMAP1.fit` does not depend on the adapter state held on
entry: it equals the outcome of the same call on a freshly constructed
instance, and on valid input it is the zero-initialized embedding buffer of
shape `(n_rows, n_components)`. -/
theorem umap1_fit_result_independent (s : UMAP1State) (h0 : UHeap)
    (X : NArray) (a : UMAPFitArgs) :
    (UMAP1.fit s h0 X a).result
      = (UMAP1.fit UMAP1.initial h0 X a).result ∧
    (X.shape.length = 2 → (a.init = "spectral" ∨ a.init = "random") →
      (UMAP1.fit s h0 X a).result
        = .ok ⟨[X.shape.getD 0 0, a.n_components], .f32⟩) := by
  obtain ⟨op, ou, okn, pv, emb, rd⟩ := s
  constructor
  · by_cases h2 : X.shape.length = 2 <;>
      by_cases hs : a.init = "spectral" <;>
      by_cases hr : a.init = "random" <;>
      rcases op with _ | p1 <;> rcases ou with _ | p2 <;>
      rcases okn with _ | p3 <;>
      simp_all [UMAP1.fit, UMAP1.initial]
  · intro h2 hinit
    rcases hinit with hi | hi <;>
      rcases op with _ | p1 <;> rcases ou with _ | p2 <;>
      rcases okn with _ | p3 <;>
      simp_all [UMAP1.fit]

/-- C8: every `UMAP1.fit` call first releases the native objects held from
any previous call — the releases form the prefix of the trace, strictly
before the fresh allocations — and frees them in the heap, so no handle
leaks across repeated fits; the new state owns exactly three fresh live
handles, and the call's outcome is identical to a first fit on a fresh
instance. -/
theorem umap1_fit_releases_and_reallocates (s : UMAP1State) (h0 : UHeap)
    (X : NArray) (a : UMAPFitArgs) (hwf : h0.wf)
    (hsub : ∀ p ∈ s.owned, p ∈ h0.live) (h2 : X.shape.length = 2)
    (hinit : a.init = "spectral" ∨ a.init = "random") :
    ((UMAP1.fit s h0 X a).trace
      = freeTrace s ++
        [.allocKnn h0.next (X.shape.getD 1 0), .allocParams (h0.next + 1),
         .allocUmap (h0.next + 2),
         .umapNativeFit (X.shape.getD 0 0) (X.shape.getD 1 0)]) ∧
    (∀ p ∈ s.owned, p ∉ (UMAP1.fit s h0 X a).heap.live) ∧
    ((UMAP1.fit s h0 X a).state.owned
      = [h0.next + 1, h0.next + 2, h0.next] ∧
     (∀ p ∈ (UMAP1.fit s h0 X a).state.owned,
       p ∈ (UMAP1.fit s h0 X a).heap.live) ∧
     (∀ p ∈ (UMAP1.fit s h0 X a).state.owned, p ∉ h0.live)) ∧
    (UMAP1.fit s h0 X a).result = (UMAP1.fit UMAP1.initial h0 X a).result ∧
    (UMAP1.fit s h0 X a).result
      = .ok ⟨[X.shape.getD 0 0, a.n_components], .f32⟩ :=
  ⟨umap1_fit_trace_eq s h0 X a h2 hinit,
   umap1_fit_frees_prev s h0 X a hwf hsub,
   umap1_fit_fresh_handles s h0 X a hwf h2 hinit,
   (umap1_fit_result_independent s h0 X a).1,
   (umap1_fit_result_independent s h0 X a).2 h2 hinit⟩

theorem umap1_fit_releases_and_reallocates_witness :
    ((UMAP1.fit
        (UMAP1.fit UMAP1.initial ⟨0, []⟩ ⟨[4, 3], .f32⟩ {}).state
        (UMAP1.fit UMAP1.initial ⟨0, []⟩ ⟨[4, 3], .f32⟩ {}).heap
        ⟨[5, 2], .f32⟩ {}).trace
      = freeTrace (UMAP1.fit UMAP1.initial ⟨0, []⟩ ⟨[4, 3], .f32⟩ {}).state
          ++ [.allocKnn 3 2, .allocParams 4, .allocUmap 5,
              .umapNativeFit 5 2]) ∧
    (∀ p ∈ (UMAP1.fit UMAP1.initial ⟨0, []⟩ ⟨[4, 3], .f32⟩ {}).state.owned,
      p ∉ (UMAP1.fit
            (UMAP1.fit UMAP1.initial ⟨0, []⟩ ⟨[4, 3], .f32⟩ {}).state
            (UMAP1.fit UMAP1.initial ⟨0, []⟩ ⟨[4, 3], .f32⟩ {}).heap
            ⟨[5, 2], .f32⟩ {}).heap.live) ∧
    (UMAP1.fit
        (UMAP1.fit UMAP1.initial ⟨0, []⟩ ⟨[4, 3], .f32⟩ {}).state
        (UMAP1.fit UMAP1.initial ⟨0, []⟩ ⟨[4, 3], .f32⟩ {}).heap
        ⟨[5, 2], .f32⟩ {}).result = .ok ⟨[5, 2], .f32⟩ := by
  have h := umap1_fit_releases_and_reallocates
    (UMAP1.fit UMAP1.initial ⟨0, []⟩ ⟨[4, 3], .f32⟩ {}).state
    (UMAP1.fit UMAP1.initial ⟨0, []⟩ ⟨[4, 3], .f32⟩ {}).heap
    ⟨[5, 2], .f32⟩ {} (by decide) (by decide) (by decide) (Or.inl rfl)
  exact ⟨h.1, h.2.1, h.2.2.2.2⟩

end Cuml
